import Mathlib

/-!
Verification of the multi-agent clinical synthesis pipeline of the
ai_tumour_board_dashboard repository.

The repository ships the React frontend (`frontend/src/pages/PatientView.jsx`,
`frontend/src/utils/api.js`) under source control here; the FastAPI backend
(`backend/main.py`), which holds the orchestrator, the four domain agents, the
consensus synthesizer, the review workflow and the result cache, is referenced
by the README and the frontend but its source is not present.  Backend
components are therefore modelled from the specification (each such definition
carries a doc comment starting with `Modelled from the spec:`); frontend
handlers are translated directly from `PatientView.jsx`.
-/

/-- Modelled from the spec: the four domain agent kinds of §4.2
(backend `main.py` is missing from the tree). -/
inductive AgentKind
  | radiology
  | clinical
  | pathology
  | tumor_board
deriving DecidableEq

/-- Status field of an AgentResult (§3). -/
inductive AgentStatus
  | ok
  | failed
deriving DecidableEq

/-- Structured payload of a successful agent: interpretation text plus
recommendation and key-finding lists, matching the fields the frontend reads
from `agent_responses` and `culminated_plan_of_action`. -/
structure AgentPayload where
  text : String
  recommendations : List String
  key_findings : List String
deriving DecidableEq

/-- Modelled from the spec: AgentResult of §3,
`{agent_kind, status: ok|failed, payload|null, confidence?, error?}`. -/
structure AgentResult where
  agent_kind : AgentKind
  status : AgentStatus
  payload : Option AgentPayload
  confidence : Option Nat
  error : Option String
deriving DecidableEq

/-- AgentBundle of §3: the per-run map from agent kind to result, realised as
an association list produced by the orchestrator. -/
abbrev AgentBundle := List (AgentKind × AgentResult)

/-- The outcome of one agent's internal reasoning call: success with a
payload, or one of the internal failures §4.2 enumerates (timeout, malformed
output, missing fields). -/
inductive AgentOutcome
  | success (p : AgentPayload) (conf : Option Nat)
  | timeout
  | malformed (msg : String)
  | missingFields (field : String)
deriving DecidableEq

/-- Whether an agent outcome is a failure. -/
def isFailure : AgentOutcome → Bool
  | .success _ _ => false
  | .timeout => true
  | .malformed _ => true
  | .missingFields _ => true

/-- Modelled from the spec: a domain agent's `run` (§4.2).  It is a total
function — it never raises to its caller; every internal failure becomes a
populated result with `status = failed` and an error message. -/
def runAgent (k : AgentKind) : AgentOutcome → AgentResult
  | .success p conf =>
      { agent_kind := k, status := .ok, payload := some p
        confidence := conf, error := none }
  | .timeout =>
      { agent_kind := k, status := .failed, payload := none
        confidence := none, error := some "timeout" }
  | .malformed msg =>
      { agent_kind := k, status := .failed, payload := none
        confidence := none, error := some ("malformed output: " ++ msg) }
  | .missingFields f =>
      { agent_kind := k, status := .failed, payload := none
        confidence := none, error := some ("missing field: " ++ f) }

/-- The canonical fixed agent order of §4.4:
radiology, clinical, pathology, tumor_board. -/
def allKinds : List AgentKind :=
  [.radiology, .clinical, .pathology, .tumor_board]

/-- Modelled from the spec: the fan-out/fan-in orchestrator `runAll` (§4.3).
Given the internal outcome of each agent's reasoning call, it collects one
result per agent kind.  It is a total function: the orchestrator itself never
fails; failure lives inside individual results. -/
def runAll (o : AgentKind → AgentOutcome) : AgentBundle :=
  allKinds.map (fun k => (k, runAgent k (o k)))

/-- Lookup of an agent kind in a bundle. -/
def lookupKind : AgentBundle → AgentKind → Option AgentResult
  | [], _ => none
  | (j, r) :: rest, k => if j = k then some r else lookupKind rest k

/-- Culminated plan of a ComprehensiveAnalysis (§3): summary text,
recommendations list, key-findings list. -/
structure CulminatedPlan where
  summary : String
  recommendations : List String
  key_findings : List String
deriving DecidableEq

/-- Modelled from the spec: structured output of the guideline-driven staging
engine (§4.4): stage, intent, consensus plan, critical flags. -/
structure EngineOutput where
  stage : String
  intent : String
  consensus_plan : String
  critical_flags : List String
deriving DecidableEq

/-- Processing metadata of a ComprehensiveAnalysis (§3). -/
structure ProcessingMetadata where
  stages_completed : List String
  engine_available : Bool
  errors : List (AgentKind × String)
deriving DecidableEq

/-- ComprehensiveAnalysis (§3).  The generation timestamp is ambient wall
clock and is left out of the model. -/
structure ComprehensiveAnalysis where
  case_id : String
  agent_bundle : AgentBundle
  culminated_plan : CulminatedPlan
  structured_outputs : Option EngineOutput
  processing_metadata : ProcessingMetadata
deriving DecidableEq

/-- Deduplication keeping the first occurrence, relative to already-seen
elements. -/
def dedupFrom (seen : List String) : List String → List String
  | [] => []
  | x :: xs => if x ∈ seen then dedupFrom seen xs else x :: dedupFrom (x :: seen) xs

/-- Deduplication keeping the first occurrence. -/
def dedup (xs : List String) : List String := dedupFrom [] xs

/-- Payloads of the successful results of a bundle, taken in the fixed
canonical agent order of §4.4 regardless of the bundle's own entry order. -/
def okPayloads (b : AgentBundle) : List AgentPayload :=
  allKinds.filterMap (fun k =>
    match lookupKind b k with
    | some r => if r.status = AgentStatus.ok then r.payload else none
    | none => none)

/-- Error messages of the failed results of a bundle, keyed by agent kind,
recorded under `processing_metadata.errors` (§4.4). -/
def agentErrors (b : AgentBundle) : List (AgentKind × String) :=
  allKinds.filterMap (fun k =>
    match lookupKind b k with
    | some r =>
        if r.status = AgentStatus.failed then r.error.map (fun e => (k, e))
        else none
    | none => none)

/-- Modelled from the spec: the consensus synthesizer (§4.4).  Successful
opinions are combined in the fixed order radiology, clinical, pathology,
tumor_board; failed agents contribute nothing to the narrative but are
recorded under `processing_metadata.errors`.  The optional guideline-staging
engine output is attached under `structured_outputs` when present; when the
engine is unreachable the field is omitted and `engine_available` is false —
never a blocking failure, since `synthesize` is total. -/
def synthesize (cid : String) (b : AgentBundle) (engine : Option EngineOutput) :
    ComprehensiveAnalysis :=
  let payloads := okPayloads b
  { case_id := cid
    agent_bundle := b
    culminated_plan :=
      { summary := String.intercalate "\n\n" (payloads.map (fun p => p.text))
        recommendations :=
          dedup (payloads.foldr (fun p acc => p.recommendations ++ acc) [])
        key_findings := payloads.foldr (fun p acc => p.key_findings ++ acc) [] }
    structured_outputs := engine
    processing_metadata :=
      { stages_completed := ["agents", "synthesis"]
        engine_available := engine.isSome
        errors := agentErrors b } }

/-- Empty per-agent output slots before any agent completes. -/
def emptySlots : AgentKind → Option AgentResult := fun _ => none

/-- Writing one agent's result into its own output slot (§5: agents touch no
shared mutable state beyond their own output slot). -/
def updateSlot (slots : AgentKind → Option AgentResult) (k : AgentKind)
    (r : AgentResult) : AgentKind → Option AgentResult :=
  fun j => if j = k then some r else slots j

/-- The fan-in loop: agents complete in the order `ord`, each writing its
result into its own slot. -/
def collectLoop (o : AgentKind → AgentOutcome) :
    List AgentKind → (AgentKind → Option AgentResult) →
    (AgentKind → Option AgentResult)
  | [], slots => slots
  | k :: rest, slots =>
      collectLoop o rest (updateSlot slots k (runAgent k (o k)))

/-- The bundle read off the slots in canonical order after agents completed
in the order `ord`. -/
def collectBundle (o : AgentKind → AgentOutcome) (ord : List AgentKind) :
    AgentBundle :=
  allKinds.filterMap (fun k =>
    (collectLoop o ord emptySlots k).map (fun r => (k, r)))

/-- Workflow errors (§7): `ConflictError` marks review-state violations. -/
inductive WorkflowError
  | conflictError
deriving DecidableEq

/-- Phase of an open review session. -/
inductive SessPhase
  | preview
  | edited
deriving DecidableEq

/-- The editable content a review session holds: the draft agent bundle plus
the culminated plan the human may edit, matching the JSON document the
frontend round-trips through the preview textarea. -/
structure AgentDraft where
  bundle : AgentBundle
  plan : CulminatedPlan
deriving DecidableEq

/-- Modelled from the spec: ReviewSession (§3), `{draft_bundle,
editable_copy, state}`; at most one active session per case. -/
structure Session where
  draft : AgentDraft
  editable : AgentDraft
  phase : SessPhase
deriving DecidableEq

/-- Per-case review and persistence state: the open session (if any) and the
cached ComprehensiveAnalysis (if any). -/
structure CaseReview where
  session : Option Session
  persisted : Option ComprehensiveAnalysis
deriving DecidableEq

/-- Observable review state of §4.5. -/
inductive ReviewState
  | none
  | preview
  | edited
  | finalized
deriving DecidableEq

/-- The review state a CaseReview is in: an open session is in its phase;
with no session, a persisted analysis means FINALIZED, otherwise NONE. -/
def reviewState (c : CaseReview) : ReviewState :=
  match c.session with
  | some s =>
      match s.phase with
      | .preview => .preview
      | .edited => .edited
  | none => if c.persisted.isSome then .finalized else .none

/-- Modelled from the spec: `preview(case_id)` (§4.5).  From NONE it opens a
session at PREVIEW holding the draft and an editable copy; on an already-open
session it returns the existing session (the idempotent policy the spec
recommends). -/
def previewStart (c : CaseReview) (draft : AgentDraft) : CaseReview :=
  match c.session with
  | some _ => c
  | none =>
      { c with session := some { draft := draft, editable := draft, phase := .preview } }

/-- Modelled from the spec: `edit(case_id, patch)` (§4.5).  Valid from
PREVIEW/EDITED; replaces the editable copy wholesale and transitions to
EDITED; with no open session it is a review-state violation. -/
def editSession (c : CaseReview) (patch : AgentDraft) :
    Except WorkflowError CaseReview :=
  match c.session with
  | none => .error .conflictError
  | some s =>
      .ok { c with session := some { s with editable := patch, phase := .edited } }

/-- Modelled from the spec: the synthesizer applied directly to approved
content (§4.5): `finalContent` is authoritative, so the culminated plan and
bundle of the persisted analysis are taken verbatim from it — the agents are
not re-run. -/
def synthesizeFromContent (cid : String) (content : AgentDraft)
    (engine : Option EngineOutput) : ComprehensiveAnalysis :=
  { case_id := cid
    agent_bundle := content.bundle
    culminated_plan := content.plan
    structured_outputs := engine
    processing_metadata :=
      { stages_completed := ["review", "synthesis"]
        engine_available := engine.isSome
        errors := agentErrors content.bundle } }

/-- Modelled from the spec: `approve(case_id, finalContent)` (§4.5).  Valid
only with an open session (PREVIEW/EDITED): it invokes the synthesizer
directly on `finalContent`, persists the analysis, discards the session
(transition to FINALIZED).  With no open session — state NONE or FINALIZED —
it yields `ConflictError`. -/
def approve (c : CaseReview) (cid : String) (finalContent : AgentDraft)
    (engine : Option EngineOutput) :
    Except WorkflowError (CaseReview × ComprehensiveAnalysis) :=
  match c.session with
  | none => .error .conflictError
  | some _ =>
      let analysis := synthesizeFromContent cid finalContent engine
      .ok ({ session := none, persisted := some analysis }, analysis)

/-- Modelled from the spec: `cancel(case_id)` (§4.5).  Valid from
PREVIEW/EDITED; discards the session and returns to NONE with no persisted
side effect. -/
def cancel (c : CaseReview) : Except WorkflowError CaseReview :=
  match c.session with
  | none => .error .conflictError
  | some _ => .ok { session := none, persisted := c.persisted }

/-- An HTTP request the frontend emits through `utils/api.js`. -/
inductive ApiRequest
  | approveReq (cid : String) (content : AgentDraft)
deriving DecidableEq

/-- The review-related component state of `PatientView.jsx`: the `useState`
fields touched by the preview/approve/cancel handlers. -/
structure PVState where
  agentSummary : Option ComprehensiveAnalysis
  agentSummaryError : Option String
  agentPreview : Option AgentDraft
  editableAgentOutput : Option AgentDraft
  showPreview : Bool
  approveLoading : Bool
deriving DecidableEq

/-- `handleApproveAgentSummary` of `PatientView.jsx` (lines 152-170), with
the network outcome of `approveAgentSummary(caseId, editableAgentOutput)`
passed in explicitly.  The guard returns unchanged when there is no editable
output or an approve is in flight; on success the response is stored and the
preview/edit state cleared; on failure only the error message is recorded. -/
def handleApproveAgentSummary (s : PVState) (cid : String)
    (result : Except String ComprehensiveAnalysis) :
    PVState × List ApiRequest :=
  match s.editableAgentOutput with
  | none => (s, [])
  | some content =>
      if s.approveLoading then (s, [])
      else
        match result with
        | .ok data =>
            ({ s with approveLoading := false
                      agentSummaryError := none
                      agentSummary := some data
                      showPreview := false
                      agentPreview := none
                      editableAgentOutput := none },
             [ApiRequest.approveReq cid content])
        | .error e =>
            ({ s with approveLoading := false
                      agentSummaryError := some e },
             [ApiRequest.approveReq cid content])

/-- `handleCancelPreview` of `PatientView.jsx` (lines 172-176): it clears
`showPreview`, `agentPreview` and `editableAgentOutput`, touches nothing
else, and performs no API call. -/
def handleCancelPreview (s : PVState) : PVState × List ApiRequest :=
  ({ s with showPreview := false
            agentPreview := none
            editableAgentOutput := none }, [])

/-- Modelled from the spec: SpecialistSummary (§3).  The generation timestamp
is ambient wall clock and is left out of the model. -/
structure SpecialistSummary where
  case_id : String
  specialist : String
  diagnosis : String
  suggestive_plan : List String
  caveats : String
  confidence : Option Nat
  source_model : String
deriving DecidableEq

/-- The enumerated specialist set, from the `specialistOptions` list of
`PatientView.jsx`. -/
def validSpecialists : List String := ["oncologist", "hepatologist"]

/-- Per-(case_id, specialist) cache of specialist summaries (§4.6). -/
abbrev SummaryCache := List ((String × String) × SpecialistSummary)

/-- Lookup of a (case_id, specialist) pair in the summary cache. -/
def cacheLookup : SummaryCache → String → String → Option SpecialistSummary
  | [], _, _ => none
  | (key, s) :: rest, cid, sp =>
      if key.fst = cid ∧ key.snd = sp then some s else cacheLookup rest cid sp

/-- Errors of the specialist summary generator (§4.1 / §7):
`GenerationFailed` carries the upstream message verbatim. -/
inductive GenError
  | notFound
  | invalidArgument
  | generationFailed (msg : String)
deriving DecidableEq

/-- The collaborators `getOrGenerate` consumes (§6): the set of known case
identifiers of the persistence layer, and the reasoning-service call, which
either returns a structured summary or an upstream error message. -/
structure GenEnv where
  cases : List String
  svc : String → String → Except String SpecialistSummary

/-- Modelled from the spec: `getOrGenerate(case_id, specialist)` (§4.1).
Returns the outcome, the resulting cache, and the number of reasoning-service
invocations this call made.  Unknown case: `NotFound`; specialist outside the
enumerated set: `InvalidArgument`; cached entry: returned unchanged with zero
service calls; otherwise the service is called exactly once — on upstream
failure the error message is carried verbatim in `GenerationFailed` and no
partial cache entry is written, on success the summary is stored and
returned. -/
def getOrGenerate (env : GenEnv) (cache : SummaryCache) (cid sp : String) :
    Except GenError SpecialistSummary × SummaryCache × Nat :=
  if cid ∈ env.cases then
    if sp ∈ validSpecialists then
      match cacheLookup cache cid sp with
      | some s => (.ok s, cache, 0)
      | none =>
          match env.svc cid sp with
          | .error e => (.error (.generationFailed e), cache, 1)
          | .ok s => (.ok s, ((cid, sp), s) :: cache, 1)
    else (.error .invalidArgument, cache, 0)
  else (.error .notFound, cache, 0)

/-- `handleSpecialistSelect` of `PatientView.jsx` (lines 81-114): the
client-side guard.  Given the summaries already held and the loading flags,
selecting a specialist fires a `generateSpecialistSummary` request only when
no summary for that specialist is held and none is loading. -/
def specialistSelectFires (summaries : String → Option SpecialistSummary)
    (loading : String → Bool) (spId : String) : Bool :=
  !(summaries spId).isSome && !(loading spId)

/-- A sample successful payload used by concrete witnesses. -/
def samplePayload : AgentPayload :=
  { text := "Findings stable."
    recommendations := ["Continue surveillance"]
    key_findings := ["Cirrhosis"] }

/-- A sample outcome assignment mirroring the spec scenario for case
TB-2025-0012: the radiology agent fails, the other three succeed. -/
def sampleOutcomes : AgentKind → AgentOutcome :=
  fun k =>
    match k with
    | .radiology => .timeout
    | .clinical => .success samplePayload (some 80)
    | .pathology => .success samplePayload (some 75)
    | .tumor_board => .success samplePayload none

/-- The agent draft held by a sample preview session. -/
def sampleDraft : AgentDraft :=
  { bundle := runAll sampleOutcomes
    plan := { summary := "Original agent draft"
              recommendations := ["Original recommendation"]
              key_findings := [] } }

/-- The sample draft after a human edit replacing the plan summary. -/
def editedDraft : AgentDraft :=
  { bundle := runAll sampleOutcomes
    plan := { summary := "Edited by clinician"
              recommendations := ["TACE"]
              key_findings := [] } }

/-- An open preview session over the sample draft. -/
def sampleSession : Session :=
  { draft := sampleDraft, editable := sampleDraft, phase := .preview }

/-- A sample PatientView component state with an open, edited preview. -/
def samplePV : PVState :=
  { agentSummary := none
    agentSummaryError := none
    agentPreview := some sampleDraft
    editableAgentOutput := some editedDraft
    showPreview := true
    approveLoading := false }

/-- A sample persisted analysis, as returned by the auto path. -/
def sampleAnalysis : ComprehensiveAnalysis :=
  synthesize "TB-2025-0012" (runAll sampleOutcomes) none

/-- A concrete reasoning-service summary used by witnesses. -/
def sampleSummary : SpecialistSummary :=
  { case_id := "TB-2025-0012"
    specialist := "oncologist"
    diagnosis := "HCC, BCLC B"
    suggestive_plan := ["TACE"]
    caveats := "Pending biopsy confirmation"
    confidence := some 80
    source_model := "gpt-4" }

/-- A concrete environment whose reasoning service succeeds. -/
def sampleEnv : GenEnv :=
  { cases := ["TB-2025-0012"]
    svc := fun _ _ => .ok sampleSummary }

/-- A concrete environment whose reasoning service fails with a quota
message. -/
def failEnv : GenEnv :=
  { cases := ["TB-2025-0012"]
    svc := fun _ _ => .error "quota exceeded" }

/-- Claim C1: for every combination of agent outcomes (0 to 4 failures), the
orchestrator's bundle has exactly four entries, one per agent kind in the
canonical order; each kind maps to a populated result tagged with that kind,
whose status is `failed` exactly when the agent's outcome was a failure — a
failed agent is never a missing entry.  `runAll` is a total function, so the
orchestrator itself never fails. -/
theorem runAll_bundle_complete (o : AgentKind → AgentOutcome) :
    (runAll o).length = 4
    ∧ (runAll o).map Prod.fst = allKinds
    ∧ ∀ k, lookupKind (runAll o) k = some (runAgent k (o k))
        ∧ (runAgent k (o k)).agent_kind = k
        ∧ (runAgent k (o k)).status
            = (if isFailure (o k) then .failed else .ok) := by
  refine ⟨by simp [runAll, allKinds], by simp [runAll, allKinds], ?_⟩
  intro k
  refine ⟨?_, ?_, ?_⟩
  · cases k <;> simp [runAll, allKinds, lookupKind]
  · cases h : o k <;> simp [runAgent]
  · cases h : o k <;> simp [runAgent, isFailure]

/-- Claim C2: a domain agent's `run` never raises to its caller — it is a
total function into `AgentResult` — and every internal failure (timeout,
malformed output, missing fields) is returned as a result with
`status = failed` carrying an error message, while a success carries no error.
Hence agent-level failures never escape the orchestrator as exceptions. -/
theorem runAgent_never_raises (k : AgentKind) (o : AgentOutcome) :
    (runAgent k o).status = (if isFailure o then .failed else .ok)
    ∧ (runAgent k o).error.isSome = isFailure o
    ∧ (runAgent k o).agent_kind = k := by
  cases o <;> simp [runAgent, isFailure]

theorem collectLoop_eq (o : AgentKind → AgentOutcome) (ord : List AgentKind)
    (slots : AgentKind → Option AgentResult) (k : AgentKind) :
    collectLoop o ord slots k
      = if k ∈ ord then some (runAgent k (o k)) else slots k := by
  induction ord generalizing slots with
  | nil => simp [collectLoop]
  | cons j rest ih =>
      simp only [collectLoop]
      rw [ih]
      by_cases h2 : k = j
      · subst h2
        by_cases h1 : k ∈ rest <;> simp [updateSlot, h1, List.mem_cons]
      · by_cases h1 : k ∈ rest <;>
          simp [updateSlot, h1, h2, List.mem_cons]

theorem collectBundle_perm (o : AgentKind → AgentOutcome)
    (ord : List AgentKind) (h : ord.Perm allKinds) :
    collectBundle o ord = runAll o := by
  have hmem : ∀ k : AgentKind, k ∈ ord := by
    intro k
    exact h.mem_iff.mpr (by cases k <;> simp [allKinds])
  simp [collectBundle, collectLoop_eq, hmem, runAll, allKinds]

/-- Claim C5: synthesis is deterministic.  The bundle collected from any
completion order of the four agents is the same, so for any two completion
orders the synthesized analyses are identical — in particular identical
bundles give byte-identical `culminated_plan.summary` text and identical
recommendation ordering — and the summary combines the successful opinions in
the fixed order radiology, clinical, pathology, tumor_board. -/
theorem synthesize_deterministic (cid : String) (g : Option EngineOutput)
    (o : AgentKind → AgentOutcome) (ord1 ord2 : List AgentKind)
    (h1 : ord1.Perm allKinds) (h2 : ord2.Perm allKinds) :
    synthesize cid (collectBundle o ord1) g
      = synthesize cid (collectBundle o ord2) g
    ∧ (synthesize cid (collectBundle o ord1) g).culminated_plan.summary
      = String.intercalate "\n\n"
          ((okPayloads (runAll o)).map (fun p => p.text))
    ∧ (synthesize cid (collectBundle o ord1) g).culminated_plan.recommendations
      = dedup ((okPayloads (runAll o)).foldr
          (fun p acc => p.recommendations ++ acc) []) := by
  rw [collectBundle_perm o ord1 h1, collectBundle_perm o ord2 h2]
  exact ⟨rfl, rfl, rfl⟩

/-- Witness for C5: two concrete completion orders — the canonical order and
its reverse — synthesize to the identical analysis. -/
theorem synthesize_deterministic_witness :
    List.Perm allKinds allKinds
    ∧ List.Perm allKinds.reverse allKinds
    ∧ synthesize "TB-2025-0012" (collectBundle sampleOutcomes allKinds) none
        = synthesize "TB-2025-0012"
            (collectBundle sampleOutcomes allKinds.reverse) none :=
  ⟨List.Perm.refl _, List.reverse_perm _,
   (synthesize_deterministic "TB-2025-0012" none sampleOutcomes allKinds
      allKinds.reverse (List.Perm.refl _) (List.reverse_perm _)).1⟩

/-- Claim C9: if the guideline-driven staging engine is reachable its
structured output is attached under `structured_outputs` and
`engine_available` is true; if it is unreachable, `engine_available` is set
to false and `structured_outputs` is omitted.  `synthesize` is a total
function, so engine unavailability is never a blocking failure. -/
theorem synthesize_engine_optional (cid : String) (b : AgentBundle)
    (eng : EngineOutput) :
    (synthesize cid b (some eng)).structured_outputs = some eng
    ∧ (synthesize cid b (some eng)).processing_metadata.engine_available = true
    ∧ (synthesize cid b none).structured_outputs = none
    ∧ (synthesize cid b none).processing_metadata.engine_available = false := by
  refine ⟨rfl, rfl, rfl, rfl⟩

/-- Claim C4: `approve` succeeds exactly when the review session is in state
PREVIEW or EDITED; from NONE (no open session) or FINALIZED it yields
`ConflictError`. -/
theorem approve_state_machine (c : CaseReview) (cid : String)
    (fc : AgentDraft) (eng : Option EngineOutput) :
    ((∃ v, approve c cid fc eng = .ok v)
      ↔ (reviewState c = .preview ∨ reviewState c = .edited))
    ∧ ((reviewState c = ReviewState.none ∨ reviewState c = .finalized)
        → approve c cid fc eng = .error .conflictError) := by
  cases hs : c.session with
  | none =>
      cases hp : c.persisted <;>
        simp [approve, reviewState, hs, hp]
  | some s =>
      cases hph : s.phase <;>
        simp [approve, reviewState, hs, hph]

/-- Witness for C4 at a concrete state with no open session. -/
theorem approve_state_machine_witness :
    (reviewState { session := none, persisted := none } = ReviewState.none
      ∨ reviewState { session := none, persisted := none }
          = ReviewState.finalized)
    ∧ approve { session := none, persisted := none } "TB-2025-0012"
        { bundle := [], plan := { summary := "", recommendations := [], key_findings := [] } }
        none = .error .conflictError := by
  refine ⟨Or.inl rfl, ?_⟩
  exact (approve_state_machine
    { session := none, persisted := none } "TB-2025-0012"
    { bundle := [], plan := { summary := "", recommendations := [], key_findings := [] } }
    none).2 (Or.inl rfl)

/-- Claim C3: in the sequence preview then edit then approve, the approved
content is authoritative.  Starting from a case with no open session,
previewing a draft, replacing the editable copy with `patch` and approving
`patch` succeeds and persists an analysis whose culminated plan and bundle
are exactly the edited content — the agents are not re-run (the analysis is
`synthesizeFromContent` of the final content alone).  On the frontend side,
`handleApproveAgentSummary` posts the editable copy verbatim as the approve
request body. -/
theorem approved_content_authoritative (c : CaseReview) (cid : String)
    (draft patch : AgentDraft) (eng : Option EngineOutput) :
    (c.session = none →
      ∃ c2 c3 analysis,
        editSession (previewStart c draft) patch = .ok c2
        ∧ approve c2 cid patch eng = .ok (c3, analysis)
        ∧ analysis.culminated_plan = patch.plan
        ∧ analysis.agent_bundle = patch.bundle
        ∧ c3.persisted = some analysis
        ∧ (patch.plan ≠ draft.plan → analysis.culminated_plan ≠ draft.plan))
    ∧ (∀ (s : PVState) (content : AgentDraft)
          (r : Except String ComprehensiveAnalysis),
        s.editableAgentOutput = some content → s.approveLoading = false →
        (handleApproveAgentSummary s cid r).2
          = [ApiRequest.approveReq cid content]) := by
  constructor
  · intro hs
    refine ⟨{ session := some { draft := draft, editable := patch, phase := .edited }
              persisted := c.persisted },
            { session := none
              persisted := some (synthesizeFromContent cid patch eng) },
            synthesizeFromContent cid patch eng,
            ?_, rfl, rfl, rfl, rfl, fun hne => hne⟩
    simp [previewStart, hs, editSession]
  · intro s content r h1 h2
    cases r <;> simp [handleApproveAgentSummary, h1, h2]

/-- Witness for C3: the concrete preview, edit, approve run from an empty
case state persists exactly the edited plan. -/
theorem approved_content_authoritative_witness :
    ∃ c2 c3 analysis,
      editSession (previewStart { session := none, persisted := none } sampleDraft)
          editedDraft = .ok c2
      ∧ approve c2 "TB-2025-0012" editedDraft none = .ok (c3, analysis)
      ∧ analysis.culminated_plan = editedDraft.plan
      ∧ analysis.agent_bundle = editedDraft.bundle
      ∧ c3.persisted = some analysis
      ∧ (editedDraft.plan ≠ sampleDraft.plan
          → analysis.culminated_plan ≠ sampleDraft.plan) :=
  (approved_content_authoritative
    { session := none, persisted := none } "TB-2025-0012"
    sampleDraft editedDraft none).1 rfl

/-- Claim C8: from an open session (PREVIEW or EDITED) `cancel` succeeds,
discards the session and leaves the persisted store untouched; from PREVIEW
with nothing persisted it leaves no persisted ComprehensiveAnalysis.  The
frontend `handleCancelPreview` emits no API request and only clears the
preview flag, the draft copy and the editable copy. -/
theorem cancel_discards_session (c : CaseReview) :
    ((reviewState c = .preview ∨ reviewState c = .edited) →
      ∃ c2, cancel c = .ok c2 ∧ c2.session = none ∧ c2.persisted = c.persisted)
    ∧ (reviewState c = .preview → c.persisted = none →
        cancel c = .ok { session := none, persisted := none })
    ∧ (∀ s : PVState,
        (handleCancelPreview s).2 = []
        ∧ (handleCancelPreview s).1.showPreview = false
        ∧ (handleCancelPreview s).1.agentPreview = none
        ∧ (handleCancelPreview s).1.editableAgentOutput = none
        ∧ (handleCancelPreview s).1.agentSummary = s.agentSummary
        ∧ (handleCancelPreview s).1.agentSummaryError = s.agentSummaryError
        ∧ (handleCancelPreview s).1.approveLoading = s.approveLoading) := by
  refine ⟨?_, ?_, ?_⟩
  · intro hst
    cases hs : c.session with
    | none =>
        exfalso
        cases hp : c.persisted <;>
          simp [reviewState, hs, hp] at hst
    | some s =>
        exact ⟨{ session := none, persisted := c.persisted },
               by simp [cancel, hs], rfl, rfl⟩
  · intro hst hp
    cases hs : c.session with
    | none =>
        cases hp2 : c.persisted <;> simp [reviewState, hs, hp2] at hst
    | some s =>
        simp [cancel, hs, hp]
  · intro s
    simp [handleCancelPreview]

/-- Witness for C8: cancelling a concrete open preview session with nothing
persisted leaves no persisted analysis. -/
theorem cancel_discards_session_witness :
    reviewState { session := some sampleSession, persisted := none }
        = ReviewState.preview
    ∧ cancel { session := some sampleSession, persisted := none }
        = .ok { session := none, persisted := none } :=
  ⟨rfl, (cancel_discards_session
    { session := some sampleSession, persisted := none }).2.1 rfl rfl⟩

/-- Claim C10: if the approve call fails, the client-side review state is
unchanged except for the recorded error message — the preview flag, the
draft bundle, the editable copy and the stored summary keep their previous
values — and the preview/edit state is cleared (and the finalized summary
stored) only when approve succeeds. -/
theorem approve_failure_preserves_state (s : PVState) (cid : String)
    (content : AgentDraft) (e : String) (a : ComprehensiveAnalysis)
    (h1 : s.editableAgentOutput = some content)
    (h2 : s.approveLoading = false) :
    ((handleApproveAgentSummary s cid (.error e)).1.showPreview = s.showPreview
     ∧ (handleApproveAgentSummary s cid (.error e)).1.agentPreview = s.agentPreview
     ∧ (handleApproveAgentSummary s cid (.error e)).1.editableAgentOutput
         = s.editableAgentOutput
     ∧ (handleApproveAgentSummary s cid (.error e)).1.agentSummary = s.agentSummary
     ∧ (handleApproveAgentSummary s cid (.error e)).1.agentSummaryError = some e)
    ∧ ((handleApproveAgentSummary s cid (.ok a)).1.showPreview = false
     ∧ (handleApproveAgentSummary s cid (.ok a)).1.agentPreview = none
     ∧ (handleApproveAgentSummary s cid (.ok a)).1.editableAgentOutput = none
     ∧ (handleApproveAgentSummary s cid (.ok a)).1.agentSummary = some a) := by
  simp [handleApproveAgentSummary, h1, h2]

/-- Witness for C10 at a concrete component state and failure message. -/
theorem approve_failure_preserves_state_witness :
    samplePV.editableAgentOutput = some editedDraft
    ∧ samplePV.approveLoading = false
    ∧ (handleApproveAgentSummary samplePV "TB-2025-0012"
        (.error "quota exceeded")).1.showPreview = samplePV.showPreview
    ∧ (handleApproveAgentSummary samplePV "TB-2025-0012"
        (.error "quota exceeded")).1.agentSummaryError = some "quota exceeded"
    ∧ (handleApproveAgentSummary samplePV "TB-2025-0012"
        (.ok sampleAnalysis)).1.editableAgentOutput = none := by
  have h := approve_failure_preserves_state samplePV "TB-2025-0012"
    editedDraft "quota exceeded" sampleAnalysis rfl rfl
  exact ⟨rfl, rfl, h.1.1, h.1.2.2.2.2, h.2.2.2.1⟩

/-- Claim C6: if a cached SpecialistSummary exists for the pair,
`getOrGenerate` returns it unchanged with zero reasoning-service
invocations; if none exists, it invokes the service exactly once and stores
the result, and a repeated call with identical arguments finds the stored
entry and invokes the service zero additional times.  The client-side guard
of `handleSpecialistSelect` likewise fires no request once a summary for the
specialist is held. -/
theorem getOrGenerate_at_most_once (env : GenEnv) (cache : SummaryCache)
    (cid sp : String) (s sum : SpecialistSummary) :
    (cid ∈ env.cases → sp ∈ validSpecialists →
      cacheLookup cache cid sp = some s →
      getOrGenerate env cache cid sp = (.ok s, cache, 0))
    ∧ (cid ∈ env.cases → sp ∈ validSpecialists →
        cacheLookup cache cid sp = none → env.svc cid sp = .ok sum →
        getOrGenerate env cache cid sp
          = (.ok sum, ((cid, sp), sum) :: cache, 1)
        ∧ getOrGenerate env (((cid, sp), sum) :: cache) cid sp
          = (.ok sum, ((cid, sp), sum) :: cache, 0))
    ∧ (∀ (summaries : String → Option SpecialistSummary)
          (loading : String → Bool) (spId : String),
        summaries spId = some s →
        specialistSelectFires summaries loading spId = false) := by
  refine ⟨?_, ?_, ?_⟩
  · intro hc hsp hcl
    simp [getOrGenerate, hc, hsp, hcl]
  · intro hc hsp hcl hsvc
    constructor
    · simp [getOrGenerate, hc, hsp, hcl, hsvc]
    · simp [getOrGenerate, hc, hsp, cacheLookup]
  · intro summaries loading spId hsum
    simp [specialistSelectFires, hsum]

/-- Witness for C6: on an empty cache the service is invoked once and the
repeated call invokes it zero additional times. -/
theorem getOrGenerate_at_most_once_witness :
    "TB-2025-0012" ∈ sampleEnv.cases
    ∧ "oncologist" ∈ validSpecialists
    ∧ cacheLookup [] "TB-2025-0012" "oncologist" = none
    ∧ sampleEnv.svc "TB-2025-0012" "oncologist" = .ok sampleSummary
    ∧ getOrGenerate sampleEnv [] "TB-2025-0012" "oncologist"
        = (.ok sampleSummary,
           [(("TB-2025-0012", "oncologist"), sampleSummary)], 1)
    ∧ getOrGenerate sampleEnv
        [(("TB-2025-0012", "oncologist"), sampleSummary)]
        "TB-2025-0012" "oncologist"
        = (.ok sampleSummary,
           [(("TB-2025-0012", "oncologist"), sampleSummary)], 0) := by
  have h := (getOrGenerate_at_most_once sampleEnv [] "TB-2025-0012"
    "oncologist" sampleSummary sampleSummary).2.1
    (by simp [sampleEnv]) (by simp [validSpecialists]) rfl rfl
  exact ⟨by simp [sampleEnv], by simp [validSpecialists], rfl, rfl, h.1, h.2⟩

/-- Claim C7: `getOrGenerate` fails with `NotFound` exactly when the case_id
is unknown; for a known case it fails with `InvalidArgument` exactly when the
specialist is outside the enumerated set; and on upstream failure it fails
with `GenerationFailed` carrying the upstream message verbatim while the
cache is left unchanged — no partial entry is written. -/
theorem getOrGenerate_error_taxonomy (env : GenEnv) (cache : SummaryCache)
    (cid sp : String) :
    ((getOrGenerate env cache cid sp).1 = .error GenError.notFound
      ↔ cid ∉ env.cases)
    ∧ (cid ∈ env.cases →
        ((getOrGenerate env cache cid sp).1 = .error .invalidArgument
          ↔ sp ∉ validSpecialists))
    ∧ (∀ e, cid ∈ env.cases → sp ∈ validSpecialists →
        cacheLookup cache cid sp = none → env.svc cid sp = .error e →
        getOrGenerate env cache cid sp
          = (.error (.generationFailed e), cache, 1)) := by
  refine ⟨?_, ?_, ?_⟩
  · by_cases hc : cid ∈ env.cases
    · by_cases hsp : sp ∈ validSpecialists
      · cases hcl : cacheLookup cache cid sp with
        | some s => simp [getOrGenerate, hc, hsp, hcl]
        | none =>
            cases hsvc : env.svc cid sp <;>
              simp [getOrGenerate, hc, hsp, hcl, hsvc]
      · simp [getOrGenerate, hc, hsp]
    · simp [getOrGenerate, hc]
  · intro hc
    by_cases hsp : sp ∈ validSpecialists
    · cases hcl : cacheLookup cache cid sp with
      | some s => simp [getOrGenerate, hc, hsp, hcl]
      | none =>
          cases hsvc : env.svc cid sp <;>
            simp [getOrGenerate, hc, hsp, hcl, hsvc]
    · simp [getOrGenerate, hc, hsp]
  · intro e hc hsp hcl hsvc
    simp [getOrGenerate, hc, hsp, hcl, hsvc]

/-- Witness for C7: a concrete upstream quota failure surfaces verbatim in
`GenerationFailed` and writes no cache entry. -/
theorem getOrGenerate_error_taxonomy_witness :
    "TB-2025-0012" ∈ failEnv.cases
    ∧ "oncologist" ∈ validSpecialists
    ∧ cacheLookup [] "TB-2025-0012" "oncologist" = none
    ∧ failEnv.svc "TB-2025-0012" "oncologist" = .error "quota exceeded"
    ∧ getOrGenerate failEnv [] "TB-2025-0012" "oncologist"
        = (.error (.generationFailed "quota exceeded"), [], 1) := by
  refine ⟨by simp [failEnv], by simp [validSpecialists], rfl, rfl, ?_⟩
  exact (getOrGenerate_error_taxonomy failEnv [] "TB-2025-0012"
    "oncologist").2.2 "quota exceeded" (by simp [failEnv])
    (by simp [validSpecialists]) rfl rfl
